import Mathlib

/-!
Verification of the obfsproxy lifecycle orchestrator (`src/main.c`).

The development shallow-embeds the mode dispatcher (`handle_obfsproxy_args`),
the protocol-registry lookup (`is_supported_protocol`), the entry point
(`obfs_main`) and the signal-driven shutdown callback (`handle_signal_cb`).
C strings are modelled as Lean `String`s; `strncmp(a, lit, strlen(lit))`
becomes a character-list prefix test and `strncmp(a, lit, strlen(lit)+1)`
becomes string equality, exactly as the C calls behave.
-/

/-- Character-by-character prefix test: `listPrefixEq p l` is true iff
`p` is a prefix of `l`, mirroring how `strncmp(a, lit, strlen(lit))`
walks both strings. -/
def listPrefixEq : List Char → List Char → Bool
  | [], _ => true
  | _ :: _, [] => false
  | a :: as, b :: bs => a == b && listPrefixEq as bs

/-- Character-list prefix test modelling `strncmp(a, pre, strlen(pre)) == 0`. -/
def strStartsWith (a pre : String) : Bool :=
  listPrefixEq pre.data a.data

/-- Model of the C pointer arithmetic `a + n` on a NUL-terminated string:
drop the first `n` characters. -/
def strDrop (a : String) (n : Nat) : String :=
  ⟨a.data.drop n⟩

/-- Logging destination, per the spec's LogPolicy: the external default,
a file, or the null sink (`LOG_METHOD_FILE` / `LOG_METHOD_NULL` in the code). -/
inductive LogDest where
  | default : LogDest
  | file (path : String) : LogDest
  | null : LogDest
deriving DecidableEq, Repr

/-- The fatal exits of `handle_obfsproxy_args`: each corresponds to one
`log_error`/`printf`+`exit(1)` site in `src/main.c` lines 149-196. -/
inductive ParseError where
  | conflictLogFile : ParseError
  | conflictSeverity : ParseError
  | conflictNoLog : ParseError
  | badSeverityValue : ParseError
  | unrecognizedArg (a : String) : ParseError
  | managedConflict : ParseError
deriving DecidableEq, Repr

/-- Which fatal exits report a duplicated/contradictory option
(a configuration conflict) as opposed to a bad value or unknown option. -/
def ParseError.isConflict : ParseError → Bool
  | .conflictLogFile => true
  | .conflictSeverity => true
  | .conflictNoLog => true
  | .managedConflict => true
  | _ => false

/-- The mutable state threaded through `handle_obfsproxy_args`:
the two seen-flags `logfile_set`/`logsev_set`, the globals `safe_logging`
and `is_external_proxy`, and the logging collaborator's destination and
minimum severity (the latter two modelled from the spec, since `util.c`
is not part of the visible source). -/
structure ArgState where
  logfile_set : Bool
  logsev_set : Bool
  safe_logging : Bool
  is_external_proxy : Bool
  dest : LogDest
  minSev : String
deriving DecidableEq, Repr

/-- Initial values: flags clear, `safe_logging=1`, `is_external_proxy=1`,
default destination, default minimum severity `notice` (spec §4.2). -/
def initState : ArgState :=
  ⟨false, false, true, true, .default, "notice"⟩

/-- Argument matches `--log-file=` (prefix compare of 11 chars). -/
def isLogFileOpt (a : String) : Bool :=
  strStartsWith a "--log-file="

/-- Argument is a severity-setting option: `--log-min-severity=` (prefix
compare of 19 chars) or exactly `--no-log` (compare of 9 chars incl. NUL). -/
def isSevOpt (a : String) : Bool :=
  strStartsWith a "--log-min-severity=" || a == "--no-log"

/-- Modelled from the spec: `log_set_min_severity` lives in `util.c`
(not in the visible source); per §4.2 the accepted levels are exactly
`warn`, `notice`, `info`, `debug`. -/
def validSeverity (s : String) : Bool :=
  s == "warn" || s == "notice" || s == "info" || s == "debug"

/-- One iteration of the option loop of `handle_obfsproxy_args`
(`src/main.c` lines 149-180), on an argument already known to begin with
`--`.  `log_set_method` is modelled from the spec as recording the
destination (its only failure mode is file I/O, outside the model);
`log_set_min_severity` is modelled by `validSeverity`. -/
def handleArg (st : ArgState) (a : String) : Except ParseError ArgState :=
  if isLogFileOpt a then
    if st.logfile_set then .error .conflictLogFile
    else .ok { st with dest := .file (strDrop a 11), logfile_set := true }
  else if strStartsWith a "--log-min-severity=" then
    if st.logsev_set then .error .conflictSeverity
    else if validSeverity (strDrop a 19) then
      .ok { st with minSev := strDrop a 19, logsev_set := true }
    else .error .badSeverityValue
  else if a == "--no-log" then
    if st.logsev_set then .error .conflictNoLog
    else .ok { st with dest := .null, logsev_set := true }
  else if a == "--no-safe-logging" then
    .ok { st with safe_logging := false }
  else if a == "--managed" then
    .ok { st with is_external_proxy := false }
  else
    .error (.unrecognizedArg a)

/-- The option loop (`src/main.c` lines 147-183): consume arguments while
they begin with `--`; stop at the first that does not and return it with
everything after it as the remainder. -/
def parseLoop : ArgState → List String → Except ParseError (ArgState × List String)
  | st, [] => .ok (st, [])
  | st, a :: rest =>
    if strStartsWith a "--" then
      match handleArg st a with
      | .error e => .error e
      | .ok st' => parseLoop st' rest
    else .ok (st, a :: rest)

/-- The arguments the option loop actually processes before returning or
exiting: the leading `--` run up to and including the argument at which a
fatal error (if any) fires. -/
def consumedArgs : ArgState → List String → List String
  | _, [] => []
  | st, a :: rest =>
    if strStartsWith a "--" then
      match handleArg st a with
      | .error _ => [a]
      | .ok st' => a :: consumedArgs st' rest
    else []

/-- `handle_obfsproxy_args` (`src/main.c` lines 140-197): run the option
loop, then apply the managed-mode post-checks of lines 185-194. -/
def handle_obfsproxy_args (args : List String) :
    Except ParseError (ArgState × List String) :=
  match parseLoop initState args with
  | .error e => .error e
  | .ok (st, rem) =>
    if !st.is_external_proxy && !st.logfile_set && st.logsev_set then
      .error .managedConflict
    else if !st.is_external_proxy && !st.logfile_set then
      .ok ({ st with dest := .null }, rem)
    else
      .ok (st, rem)

/-- Proxy mode, per the spec's data model. -/
inductive ProxyMode where
  | external (remainder : List String) : ProxyMode
  | managed : ProxyMode
deriving DecidableEq, Repr

/-- Resolved logging policy, per the spec's data model. -/
structure LogPolicy where
  destination : LogDest
  minSeverity : String
  scrubAddresses : Bool
deriving DecidableEq, Repr

/-- Outcome of `obfs_main`: either the process exits during argument
handling (before any subsystem initializes — initialization happens only
inside the mode launchers), or a mode is launched under a resolved policy. -/
inductive MainOutcome where
  | exited (code : Nat) : MainOutcome
  | launched (mode : ProxyMode) (policy : LogPolicy) : MainOutcome
deriving DecidableEq, Repr

/-- The LogPolicy resolved from the dispatcher state. -/
def logPolicyOf (st : ArgState) : LogPolicy :=
  ⟨st.dest, st.minSev, st.safe_logging⟩

/-- `obfs_main` (`src/main.c` lines 286-304) up to the mode launch: every
fatal error in argument handling exits with code 1 (`exit(1)` directly or
via `log_error`, which the spec documents as terminating the process);
otherwise the resolved mode is launched on the unconsumed remainder. -/
def obfs_main (args : List String) : MainOutcome :=
  match handle_obfsproxy_args args with
  | .error _ => .exited 1
  | .ok (st, rem) =>
    .launched (if st.is_external_proxy then .external rem else .managed)
      (logPolicyOf st)

/-- A registry entry: the orchestrator only reads `name`
(`supported_protocols[i]->name`). -/
structure ProtocolDescriptor where
  name : String
deriving DecidableEq, Repr

/-- `is_supported_protocol` (`src/main.c` lines 121-130): linear scan with
`strcmp`, returning 1 at the first exact match, else 0.  The registry
contents live in `protocol.c` (not in the visible source), so the scan is
parameterized by the registry sequence. -/
def is_supported_protocol (registry : List ProtocolDescriptor) (name : String) : Bool :=
  match registry with
  | [] => false
  | p :: rest => if name = p.name then true else is_supported_protocol rest name

deriving instance DecidableEq for Except

/-- The two signals the orchestrator registers handlers for
(`SIGINT`, `SIGTERM`). -/
inductive ObfsSignal where
  | sigint : ObfsSignal
  | sigterm : ObfsSignal
deriving DecidableEq, Repr

/-- The calls `handle_signal_cb` issues to the network collaborator:
`close_all_listeners()` and `start_shutdown(barbaric)`, where
`barbaric = false` is the graceful-drain directive and `barbaric = true`
the immediate-shutdown directive. -/
inductive SigAction where
  | closeAllListeners : SigAction
  | startShutdown (barbaric : Bool) : SigAction
deriving DecidableEq, Repr

/-- `handle_signal_cb` (`src/main.c` lines 78-101): one delivery of a
signal, acting on the static counter `got_sigint`.  Returns the updated
counter and the list of collaborator calls issued, in order.  On `SIGINT`
the code first calls `close_all_listeners()` unconditionally, then issues
`start_shutdown(0)` and increments the counter the first time, or
`start_shutdown(1)` on repeats; on `SIGTERM` it issues `start_shutdown(1)`
and does not touch the counter or the listeners. -/
def handle_signal_cb : Nat → ObfsSignal → Nat × List SigAction
  | g, .sigint =>
    if g = 0 then (g + 1, [.closeAllListeners, .startShutdown false])
    else (g, [.closeAllListeners, .startShutdown true])
  | g, .sigterm => (g, [.startShutdown true])

/-- Deliver a sequence of signals (the reactor dispatches them one at a
time, never overlapping), accumulating the emitted collaborator calls. -/
def runSignals : Nat → List ObfsSignal → Nat × List SigAction
  | g, [] => (g, [])
  | g, s :: rest =>
    let step := handle_signal_cb g s
    let tail := runSignals step.1 rest
    (tail.1, step.2 ++ tail.2)

/-- The collaborator calls emitted by a whole signal sequence, starting
from the initial state (`got_sigint = 0`). -/
def sigTrace (tr : List ObfsSignal) : List SigAction :=
  (runSignals 0 tr).2

/-- The value of the static `got_sigint` counter after a signal sequence. -/
def gotSigint (tr : List ObfsSignal) : Nat :=
  (runSignals 0 tr).1

/-- Modelled from the spec: `start_shutdown` lives in `network.c` (not in
the visible source); per §4.5 the immediate directive
(`start_shutdown(1)`) calls `requestExit()` unconditionally, while the
graceful directive leaves `requestExit()` to the network collaborator
once draining completes.  So the orchestrator's `requestExit()` calls are
counted by the immediate directives it issues. -/
def requestExitCount (acts : List SigAction) : Nat :=
  acts.countP fun a => a == .startShutdown true

/-- Number of `close_all_listeners()` invocations in a call trace. -/
def closeCount (acts : List SigAction) : Nat :=
  acts.countP fun a => a == .closeAllListeners

/-- Number of graceful-shutdown directives (`start_shutdown(0)`) in a
call trace. -/
def gracefulCount (acts : List SigAction) : Nat :=
  acts.countP fun a => a == .startShutdown false

/-- The spec's shutdown state machine states (§3, §4.5). -/
inductive ShutdownState where
  | running : ShutdownState
  | draining : ShutdownState
  | terminating : ShutdownState
deriving DecidableEq, Repr

/-- The shutdown state observed from the directives the orchestrator has
issued: a graceful directive puts the system in Draining, an immediate
directive in Terminating, listener closure changes nothing (§4.5: the
coordinator only issues these directives plus listener closure). -/
def actionStep : ShutdownState → SigAction → ShutdownState
  | s, .closeAllListeners => s
  | _, .startShutdown false => .draining
  | _, .startShutdown true => .terminating

/-- The shutdown state after delivering a signal sequence from startup. -/
def stateAfter (tr : List ObfsSignal) : ShutdownState :=
  (sigTrace tr).foldl actionStep .running

/-- Two prefixes of the same character list are comparable. -/
theorem listPrefixEq_comparable (l p q : List Char) (hp : listPrefixEq p l = true)
    (hq : listPrefixEq q l = true) :
    listPrefixEq p q = true ∨ listPrefixEq q p = true := by
  induction l generalizing p q with
  | nil =>
    cases p with
    | nil => exact Or.inl rfl
    | cons a as => simp [listPrefixEq] at hp
  | cons c cs ih =>
    cases p with
    | nil => exact Or.inl rfl
    | cons a as =>
      cases q with
      | nil => exact Or.inr rfl
      | cons b bs =>
        simp [listPrefixEq] at hp hq
        obtain ⟨hac, has⟩ := hp
        obtain ⟨hbc, hbs⟩ := hq
        subst hac
        subst hbc
        rcases ih as bs has hbs with h | h
        · exact Or.inl (by simp [listPrefixEq, h])
        · exact Or.inr (by simp [listPrefixEq, h])

/-- An argument matching `--log-min-severity=` cannot match `--log-file=`. -/
theorem minsev_not_logfile (a : String)
    (h : strStartsWith a "--log-min-severity=" = true) : isLogFileOpt a = false := by
  by_contra hcon
  rw [Bool.not_eq_false] at hcon
  simp only [isLogFileOpt, strStartsWith] at hcon h
  rcases listPrefixEq_comparable a.data _ _ hcon h with h2 | h2
  · exact absurd h2 (by decide)
  · exact absurd h2 (by decide)

/-- A severity-setting option never also matches `--log-file=`. -/
theorem sev_not_logfile (a : String) (h : isSevOpt a = true) : isLogFileOpt a = false := by
  simp only [isSevOpt, Bool.or_eq_true] at h
  rcases h with h | h
  · exact minsev_not_logfile a h
  · rw [beq_iff_eq] at h
    subst h
    decide

/-- An argument matching `--log-file=` is not a severity-setting option. -/
theorem logfile_not_sev (a : String) (h : isLogFileOpt a = true) : isSevOpt a = false := by
  by_contra hcon
  rw [Bool.not_eq_false] at hcon
  rw [sev_not_logfile a hcon] at h
  exact absurd h (by decide)

/-- A successfully handled option updates each seen-flag exactly when the
argument is the corresponding option, and succeeds only when the flag was
not already set (otherwise the code exits instead). -/
theorem handleArg_ok_flags {st : ArgState} {a : String} {st' : ArgState}
    (h : handleArg st a = .ok st') :
    st'.logfile_set = (st.logfile_set || isLogFileOpt a) ∧
    st'.logsev_set = (st.logsev_set || isSevOpt a) ∧
    (st.logfile_set && isLogFileOpt a) = false ∧
    (st.logsev_set && isSevOpt a) = false := by
  unfold handleArg at h
  split at h
  · rename_i h1
    split at h
    · exact absurd h (by simp)
    · rename_i h2
      rw [Bool.not_eq_true] at h2
      rw [Except.ok.injEq] at h
      subst h
      simp [h1, h2, logfile_not_sev a h1]
  · rename_i h1
    split at h
    · rename_i h2
      split at h
      · exact absurd h (by simp)
      · rename_i h3
        rw [Bool.not_eq_true] at h3
        split at h
        · rw [Except.ok.injEq] at h
          subst h
          rw [Bool.not_eq_true] at h1
          simp [h1, h3, isSevOpt, h2]
        · exact absurd h (by simp)
    · rename_i h2
      split at h
      · rename_i h3
        split at h
        · exact absurd h (by simp)
        · rename_i h4
          rw [Bool.not_eq_true] at h4
          rw [Except.ok.injEq] at h
          subst h
          rw [Bool.not_eq_true] at h1
          simp [h1, h4, isSevOpt, h3]
      · rename_i h3
        have hsev : isSevOpt a = false := by
          simp [isSevOpt, Bool.or_eq_true]
          constructor
          · exact Bool.not_eq_true _ ▸ (Bool.of_not_eq_true h2)
          · intro hq
            exact h3 (by rw [hq]; rfl)
        rw [Bool.not_eq_true] at h1
        split at h
        · rw [Except.ok.injEq] at h
          subst h
          simp [h1, hsev]
        · split at h
          · rw [Except.ok.injEq] at h
            subst h
            simp [h1, hsev]
          · exact absurd h (by simp)

/-- When an option that was already set recurs, the fatal exit taken at it
is one of the configuration-conflict exits. -/
theorem handleArg_error_dup {st : ArgState} {a : String} {e : ParseError}
    (h : handleArg st a = .error e) :
    (isLogFileOpt a = true → st.logfile_set = true → e.isConflict = true) ∧
    (isSevOpt a = true → st.logsev_set = true → e.isConflict = true) := by
  unfold handleArg at h
  split at h
  · rename_i h1
    split at h
    · rw [Except.error.injEq] at h
      subst h
      exact ⟨fun _ _ => rfl, fun hs _ => absurd (sev_not_logfile a hs) (by simp [h1])⟩
    · exact absurd h (by simp)
  · rename_i h1
    split at h
    · rename_i h2
      split at h
      · rw [Except.error.injEq] at h
        subst h
        exact ⟨fun hl _ => absurd hl h1, fun _ _ => rfl⟩
      · rename_i h3
        split at h
        · exact absurd h (by simp)
        · rw [Except.error.injEq] at h
          subst h
          exact ⟨fun hl _ => absurd hl h1,
                 fun _ hsev => absurd hsev (by simp [Bool.not_eq_true] at h3 ⊢; exact h3)⟩
    · rename_i h2
      split at h
      · rename_i h3
        split at h
        · rw [Except.error.injEq] at h
          subst h
          exact ⟨fun hl _ => absurd hl h1, fun _ _ => rfl⟩
        · exact absurd h (by simp)
      · rename_i h3
        split at h
        · exact absurd h (by simp)
        · split at h
          · exact absurd h (by simp)
          · rw [Except.error.injEq] at h
            subst h
            refine ⟨fun hl _ => absurd hl h1, fun hsev _ => ?_⟩
            simp only [isSevOpt, Bool.or_eq_true] at hsev
            rcases hsev with hq | hq
            · exact absurd hq h2
            · exact absurd hq h3


/-- Counting helper: when two Booleans are not both true, the count of
their disjunction splits into a sum. -/
theorem count_or_split (x y : Bool) (hxy : (x && y) = false) :
    (if (x || y) = true then 1 else 0) =
      (if x = true then 1 else 0) + (if y = true then 1 else 0) := by
  cases x <;> cases y <;> simp_all

/-- Duplicate options never survive the option loop: if the arguments the
loop processes contain two `--log-file=` options, or two severity-setting
options, counting a flag already set on entry as one occurrence, then the
loop exits fatally at a configuration-conflict site. -/
theorem parseLoop_dup_conflict :
    ∀ (args : List String) (st : ArgState),
      (2 ≤ (consumedArgs st args).countP isLogFileOpt +
             (if st.logfile_set = true then 1 else 0) ∨
       2 ≤ (consumedArgs st args).countP isSevOpt +
             (if st.logsev_set = true then 1 else 0)) →
      ∃ e, parseLoop st args = .error e ∧ e.isConflict = true := by
  intro args
  induction args with
  | nil =>
    intro st h
    simp only [consumedArgs, List.countP_nil, Nat.zero_add] at h
    rcases h with h | h <;> split at h <;> omega
  | cons a rest ih =>
    intro st h
    by_cases hpre : strStartsWith a "--" = true
    · cases hha : handleArg st a with
      | error e =>
        refine ⟨e, by simp [parseLoop, hpre, hha], ?_⟩
        simp only [consumedArgs, hpre, if_true, hha, List.countP_cons,
          List.countP_nil, Nat.zero_add] at h
        have hd := handleArg_error_dup hha
        rcases h with h | h
        · have h1 : isLogFileOpt a = true := by
            by_contra hc
            rw [if_neg hc] at h
            split at h <;> omega
          have h2 : st.logfile_set = true := by
            by_contra hc
            rw [if_pos h1, if_neg hc] at h
            omega
          exact hd.1 h1 h2
        · have h1 : isSevOpt a = true := by
            by_contra hc
            rw [if_neg hc] at h
            split at h <;> omega
          have h2 : st.logsev_set = true := by
            by_contra hc
            rw [if_pos h1, if_neg hc] at h
            omega
          exact hd.2 h1 h2
      | ok st1 =>
        have hf := handleArg_ok_flags hha
        simp only [consumedArgs, hpre, if_true, hha, List.countP_cons] at h
        have hnext :
            2 ≤ (consumedArgs st1 rest).countP isLogFileOpt +
                  (if st1.logfile_set = true then 1 else 0) ∨
            2 ≤ (consumedArgs st1 rest).countP isSevOpt +
                  (if st1.logsev_set = true then 1 else 0) := by
          rcases h with h | h
          · left
            rw [hf.1, count_or_split _ _ hf.2.2.1]
            omega
          · right
            rw [hf.2.1, count_or_split _ _ hf.2.2.2]
            omega
        obtain ⟨e, he, hc⟩ := ih st1 hnext
        exact ⟨e, by simp [parseLoop, hpre, hha, he], hc⟩
    · rw [Bool.not_eq_true] at hpre
      simp only [consumedArgs, hpre, Bool.false_eq_true, if_false,
        List.countP_nil, Nat.zero_add] at h
      rcases h with h | h <;> split at h <;> omega

/-- When the option loop returns normally, the remainder is exactly the
input with its leading run of `--` arguments removed, unmodified, and the
consumed arguments are exactly that leading run. -/
theorem parseLoop_remainder :
    ∀ (args : List String) (st st' : ArgState) (rem : List String),
      parseLoop st args = .ok (st', rem) →
      rem = args.dropWhile (fun a => strStartsWith a "--") ∧
      consumedArgs st args = args.takeWhile (fun a => strStartsWith a "--") := by
  intro args
  induction args with
  | nil =>
    intro st st' rem h
    simp only [parseLoop, Except.ok.injEq, Prod.mk.injEq] at h
    rcases h with ⟨rfl, rfl⟩
    simp [consumedArgs]
  | cons a rest ih =>
    intro st st' rem h
    by_cases hpre : strStartsWith a "--" = true
    · cases hha : handleArg st a with
      | error e => simp [parseLoop, hpre, hha] at h
      | ok st1 =>
        rw [parseLoop, if_pos hpre, hha] at h
        obtain ⟨h1, h2⟩ := ih st1 st' rem h
        constructor
        · simp only [List.dropWhile_cons, hpre, if_true]
          exact h1
        · simp only [List.takeWhile_cons, hpre, if_true]
          simp only [consumedArgs, hpre, if_true, hha, h2]
    · rw [Bool.not_eq_true] at hpre
      rw [parseLoop] at h
      simp only [hpre, Bool.false_eq_true, if_false, Except.ok.injEq,
        Prod.mk.injEq] at h
      rcases h with ⟨rfl, rfl⟩
      constructor
      · simp [List.dropWhile_cons, hpre]
      · simp [List.takeWhile_cons, hpre, consumedArgs]

/-- Delivering a concatenation of signal sequences concatenates the
emitted call traces, threading the `got_sigint` counter through. -/
theorem runSignals_append (g : Nat) (t1 t2 : List ObfsSignal) :
    runSignals g (t1 ++ t2) =
      ((runSignals (runSignals g t1).1 t2).1,
       (runSignals g t1).2 ++ (runSignals (runSignals g t1).1 t2).2) := by
  induction t1 generalizing g with
  | nil => simp [runSignals]
  | cons s t1 ih => simp [runSignals, ih, List.append_assoc]

/-- The call trace of a sequence extended by one signal is the old trace
followed by the calls of one `handle_signal_cb` invocation at the
accumulated `got_sigint` value. -/
theorem sigTrace_append_single (pre : List ObfsSignal) (s : ObfsSignal) :
    sigTrace (pre ++ [s]) = sigTrace pre ++ (handle_signal_cb (gotSigint pre) s).2 := by
  simp [sigTrace, gotSigint, runSignals_append, runSignals]

/-- The observed shutdown state after one more signal is obtained by
folding that signal's emitted calls into the previous state. -/
theorem stateAfter_append_single (pre : List ObfsSignal) (s : ObfsSignal) :
    stateAfter (pre ++ [s]) =
      (handle_signal_cb (gotSigint pre) s).2.foldl actionStep (stateAfter pre) := by
  rw [stateAfter, sigTrace_append_single, List.foldl_append]
  rfl

/-- C1 counterexample: on the very first signal, a terminate-signal
delivered in state Running, the callback's entire call trace is the single
immediate-shutdown directive — `close_all_listeners()` is not invoked
(the `SIGTERM` arm of `handle_signal_cb` has no such call), contradicting
the claim that the callback closes all listeners. -/
theorem sigterm_no_listener_close :
    stateAfter [] = .running ∧
    sigTrace [.sigterm] = [.startShutdown true] ∧
    closeCount (sigTrace [.sigterm]) = 0 ∧
    SigAction.closeAllListeners ∉ sigTrace [.sigterm] := by
  decide

/-- C1 (amended): for every delivery of the terminate-signal while the
machine is in Running or Draining, the callback requests immediate
shutdown (hence calls `requestExit()` exactly once) and the next state is
Terminating; it does not itself close the listeners. -/
theorem sigterm_immediate_shutdown (pre : List ObfsSignal)
    (h : stateAfter pre = .running ∨ stateAfter pre = .draining) :
    stateAfter (pre ++ [.sigterm]) = .terminating ∧
    (handle_signal_cb (gotSigint pre) .sigterm).2 = [.startShutdown true] ∧
    requestExitCount (handle_signal_cb (gotSigint pre) .sigterm).2 = 1 ∧
    SigAction.closeAllListeners ∉ (handle_signal_cb (gotSigint pre) .sigterm).2 := by
  refine ⟨?_, rfl, rfl, by simp [handle_signal_cb]⟩
  rw [stateAfter_append_single]
  rfl

/-- Witness for C1's amended theorem at the concrete sequence [terminate]
delivered from the initial Running state. -/
theorem sigterm_immediate_shutdown_witness :
    (stateAfter [] = .running ∨ stateAfter [] = .draining) ∧
    (stateAfter ([] ++ [ObfsSignal.sigterm]) = .terminating ∧
     (handle_signal_cb (gotSigint []) .sigterm).2 = [.startShutdown true] ∧
     requestExitCount (handle_signal_cb (gotSigint []) .sigterm).2 = 1 ∧
     SigAction.closeAllListeners ∉ (handle_signal_cb (gotSigint []) .sigterm).2) :=
  ⟨Or.inl (by decide), sigterm_immediate_shutdown [] (Or.inl (by decide))⟩

/-- C2 counterexample: after two interrupt-signals the machine is
Terminating, yet a third interrupt is not a no-op — the callback closes
the listeners again and issues the immediate-shutdown directive again
(another `requestExit()` call): `handle_signal_cb` has no terminal-state
guard. -/
theorem third_sigint_not_noop :
    stateAfter [.sigint, .sigint] = .terminating ∧
    (handle_signal_cb (gotSigint [.sigint, .sigint]) .sigint).2 =
      [.closeAllListeners, .startShutdown true] ∧
    closeCount (handle_signal_cb (gotSigint [.sigint, .sigint]) .sigint).2 = 1 ∧
    requestExitCount (handle_signal_cb (gotSigint [.sigint, .sigint]) .sigint).2 = 1 := by
  decide

/-- C2 (amended): once Terminating has been entered and at least one
interrupt-signal has been delivered, every subsequent signal leaves the
state Terminating and issues no graceful-shutdown directive; but it is
not a no-op: an interrupt re-closes the listeners and re-issues the
immediate-shutdown directive (with its `requestExit()` call), and a
terminate re-issues the immediate-shutdown directive.  (Without a prior
interrupt the state does not even remain Terminating — see C3.) -/
theorem terminating_signals_idempotent (pre : List ObfsSignal) (s : ObfsSignal)
    (h1 : stateAfter pre = .terminating) (h2 : 1 ≤ gotSigint pre) :
    stateAfter (pre ++ [s]) = .terminating ∧
    gracefulCount (handle_signal_cb (gotSigint pre) s).2 = 0 ∧
    requestExitCount (handle_signal_cb (gotSigint pre) s).2 = 1 ∧
    (s = .sigint →
      (handle_signal_cb (gotSigint pre) s).2 =
        [.closeAllListeners, .startShutdown true]) ∧
    (s = .sigterm →
      (handle_signal_cb (gotSigint pre) s).2 = [.startShutdown true]) := by
  have hg : ¬ gotSigint pre = 0 := by omega
  cases s with
  | sigint =>
    have hstep : (handle_signal_cb (gotSigint pre) .sigint).2 =
        [.closeAllListeners, .startShutdown true] := by
      simp [handle_signal_cb, hg]
    refine ⟨?_, by rw [hstep]; rfl, by rw [hstep]; rfl,
      fun _ => hstep, fun hc => nomatch hc⟩
    rw [stateAfter_append_single, hstep]
    rfl
  | sigterm =>
    refine ⟨?_, rfl, rfl, fun hc => absurd hc (by decide), fun _ => rfl⟩
    rw [stateAfter_append_single]
    rfl

/-- Witness for C2's amended theorem: after [interrupt, interrupt] the
machine is Terminating with the interrupt counter set; a further
terminate keeps it Terminating and re-issues only the immediate
directive. -/
theorem terminating_signals_idempotent_witness :
    (stateAfter [ObfsSignal.sigint, .sigint] = .terminating ∧
     1 ≤ gotSigint [ObfsSignal.sigint, .sigint]) ∧
    (stateAfter ([ObfsSignal.sigint, .sigint] ++ [ObfsSignal.sigterm]) = .terminating ∧
     gracefulCount (handle_signal_cb (gotSigint [ObfsSignal.sigint, .sigint]) .sigterm).2 = 0 ∧
     requestExitCount (handle_signal_cb (gotSigint [ObfsSignal.sigint, .sigint]) .sigterm).2 = 1 ∧
     (ObfsSignal.sigterm = ObfsSignal.sigint →
       (handle_signal_cb (gotSigint [ObfsSignal.sigint, .sigint]) .sigterm).2 =
         [.closeAllListeners, .startShutdown true]) ∧
     (ObfsSignal.sigterm = ObfsSignal.sigterm →
       (handle_signal_cb (gotSigint [ObfsSignal.sigint, .sigint]) .sigterm).2 =
         [.startShutdown true])) :=
  ⟨⟨by decide, by decide⟩,
   terminating_signals_idempotent [ObfsSignal.sigint, .sigint] .sigterm
     (by decide) (by decide)⟩

/-- C3 refuted at input [terminate, interrupt]: the terminate puts the
machine in Terminating (immediate-shutdown directive issued), but the
following interrupt finds `got_sigint` still 0 and issues the
graceful-shutdown (Draining) directive after the immediate-shutdown one —
the machine moves backward, contradicting the monotonicity invariant. -/
theorem sigterm_then_sigint_nonmonotone :
    stateAfter [.sigterm] = .terminating ∧
    sigTrace [.sigterm, .sigint] =
      [.startShutdown true, .closeAllListeners, .startShutdown false] ∧
    gracefulCount (handle_signal_cb (gotSigint [.sigterm]) .sigint).2 = 1 ∧
    stateAfter [.sigterm, .sigint] = .draining := by
  decide

/-- C4: one interrupt from startup puts the machine in Draining, closes
the listeners exactly once, issues the graceful-shutdown directive and
does not call `requestExit()`; a second interrupt puts it in Terminating
with `requestExit()` called exactly once, on the second interrupt. -/
theorem sigint_sequence_behavior :
    stateAfter [.sigint] = .draining ∧
    closeCount (sigTrace [.sigint]) = 1 ∧
    gracefulCount (sigTrace [.sigint]) = 1 ∧
    requestExitCount (sigTrace [.sigint]) = 0 ∧
    stateAfter [.sigint, .sigint] = .terminating ∧
    requestExitCount (sigTrace [.sigint, .sigint]) = 1 ∧
    requestExitCount (handle_signal_cb (gotSigint [.sigint]) .sigint).2 = 1 := by
  decide

/-- C5: any argument sequence whose consumed option prefix contains two
`--log-file=` options, or two severity-setting options (two of
`--log-min-severity=`, `--no-log`, or one of each), makes the dispatcher
exit at a configuration-conflict site with code 1, before any mode is
launched (subsystems initialize only inside the launchers). -/
theorem duplicate_option_conflict (args : List String)
    (h : 2 ≤ (consumedArgs initState args).countP isLogFileOpt ∨
         2 ≤ (consumedArgs initState args).countP isSevOpt) :
    (∃ e, handle_obfsproxy_args args = .error e ∧ e.isConflict = true) ∧
    obfs_main args = .exited 1 := by
  have hdup : ∃ e, parseLoop initState args = .error e ∧ e.isConflict = true := by
    refine parseLoop_dup_conflict args initState ?_
    rcases h with h | h
    · exact Or.inl (by simpa [initState] using h)
    · exact Or.inr (by simpa [initState] using h)
  obtain ⟨e, he, hc⟩ := hdup
  refine ⟨⟨e, ?_, hc⟩, ?_⟩
  · simp [handle_obfsproxy_args, he]
  · simp [obfs_main, handle_obfsproxy_args, he]

/-- Witness for C5 at the sequence with `--log-file=` twice. -/
theorem duplicate_option_conflict_witness :
    (2 ≤ (consumedArgs initState ["--log-file=a", "--log-file=b"]).countP isLogFileOpt ∨
     2 ≤ (consumedArgs initState ["--log-file=a", "--log-file=b"]).countP isSevOpt) ∧
    ((∃ e, handle_obfsproxy_args ["--log-file=a", "--log-file=b"] = .error e ∧
        e.isConflict = true) ∧
     obfs_main ["--log-file=a", "--log-file=b"] = .exited 1) :=
  ⟨Or.inl (by decide),
   duplicate_option_conflict ["--log-file=a", "--log-file=b"] (Or.inl (by decide))⟩

/-- C6: whenever the option loop completes with Managed mode selected, no
log file set, and the severity flag set, the dispatcher exits with the
managed-mode configuration conflict, code 1. -/
theorem managed_severity_conflict (args : List String) (st : ArgState)
    (rem : List String) (hp : parseLoop initState args = .ok (st, rem))
    (hm : st.is_external_proxy = false) (hlf : st.logfile_set = false)
    (hsev : st.logsev_set = true) :
    handle_obfsproxy_args args = .error .managedConflict ∧
    obfs_main args = .exited 1 := by
  have hh : handle_obfsproxy_args args = .error .managedConflict := by
    simp [handle_obfsproxy_args, hp, hm, hlf, hsev]
  exact ⟨hh, by simp [obfs_main, hh]⟩

/-- Witness for C6 at ["--log-min-severity=debug", "--managed"]. -/
theorem managed_severity_conflict_witness :
    parseLoop initState ["--log-min-severity=debug", "--managed"] =
      .ok (⟨false, true, true, false, .default, "debug"⟩, []) ∧
    (handle_obfsproxy_args ["--log-min-severity=debug", "--managed"] =
      .error .managedConflict ∧
     obfs_main ["--log-min-severity=debug", "--managed"] = .exited 1) :=
  ⟨by decide,
   managed_severity_conflict ["--log-min-severity=debug", "--managed"]
     ⟨false, true, true, false, .default, "debug"⟩ [] (by decide) rfl rfl rfl⟩

/-- C7: whenever the option loop completes with Managed mode selected and
neither the log-file flag nor the severity flag set, the dispatcher
succeeds, forces the logging destination to the null sink, and resolves
Managed mode. -/
theorem managed_null_logging (args : List String) (st : ArgState)
    (rem : List String) (hp : parseLoop initState args = .ok (st, rem))
    (hm : st.is_external_proxy = false) (hlf : st.logfile_set = false)
    (hsev : st.logsev_set = false) :
    handle_obfsproxy_args args = .ok ({ st with dest := .null }, rem) ∧
    obfs_main args = .launched .managed ⟨.null, st.minSev, st.safe_logging⟩ := by
  have hh : handle_obfsproxy_args args = .ok ({ st with dest := .null }, rem) := by
    simp [handle_obfsproxy_args, hp, hm, hlf, hsev]
  refine ⟨hh, ?_⟩
  simp [obfs_main, hh, hm, logPolicyOf]

/-- Witness for C7 at ["--managed"] alone. -/
theorem managed_null_logging_witness :
    parseLoop initState ["--managed"] =
      .ok (⟨false, false, true, false, .default, "notice"⟩, []) ∧
    (handle_obfsproxy_args ["--managed"] =
      .ok (⟨false, false, true, false, .null, "notice"⟩, []) ∧
     obfs_main ["--managed"] = .launched .managed ⟨.null, "notice", true⟩) :=
  ⟨by decide,
   managed_null_logging ["--managed"]
     ⟨false, false, true, false, .default, "notice"⟩ [] (by decide) rfl rfl rfl⟩

/-- C8: whenever the dispatcher completes normally, the remainder it
returns is exactly the input with its leading run of `--` arguments
removed (the first argument not beginning with `--` and everything after
it, unmodified), and the consumed prefix is exactly that leading run. -/
theorem dispatcher_remainder_unmodified (args : List String) (st : ArgState)
    (rem : List String) (h : handle_obfsproxy_args args = .ok (st, rem)) :
    rem = args.dropWhile (fun a => strStartsWith a "--") ∧
    consumedArgs initState args = args.takeWhile (fun a => strStartsWith a "--") := by
  unfold handle_obfsproxy_args at h
  cases hp : parseLoop initState args with
  | error e =>
    rw [hp] at h
    exact absurd h (by simp)
  | ok p =>
    obtain ⟨st0, rem0⟩ := p
    rw [hp] at h
    have h2 : (if (!st0.is_external_proxy && !st0.logfile_set && st0.logsev_set) = true
          then (Except.error ParseError.managedConflict :
                  Except ParseError (ArgState × List String))
          else if (!st0.is_external_proxy && !st0.logfile_set) = true
          then .ok ({ st0 with dest := .null }, rem0)
          else .ok (st0, rem0)) = .ok (st, rem) := h
    have hr : rem = rem0 := by
      by_cases c1 : (!st0.is_external_proxy && !st0.logfile_set && st0.logsev_set) = true
      · rw [if_pos c1] at h2
        exact absurd h2 (by simp)
      · rw [if_neg c1] at h2
        by_cases c2 : (!st0.is_external_proxy && !st0.logfile_set) = true
        · rw [if_pos c2] at h2
          exact (congrArg Prod.snd (Except.ok.inj h2)).symm
        · rw [if_neg c2] at h2
          exact (congrArg Prod.snd (Except.ok.inj h2)).symm
    obtain ⟨h1, h2⟩ := parseLoop_remainder args initState st0 rem0 hp
    exact ⟨hr ▸ h1, h2⟩

/-- Witness for C8 at ["obfs2", "--dest=1.2.3.4:80"]: the consumed prefix
is empty (the first argument is not an option), the mode is External, and
the remainder is the whole sequence even though its second element begins
with `--`. -/
theorem dispatcher_remainder_unmodified_witness :
    handle_obfsproxy_args ["obfs2", "--dest=1.2.3.4:80"] =
      .ok (initState, ["obfs2", "--dest=1.2.3.4:80"]) ∧
    obfs_main ["obfs2", "--dest=1.2.3.4:80"] =
      .launched (.external ["obfs2", "--dest=1.2.3.4:80"]) ⟨.default, "notice", true⟩ ∧
    (["obfs2", "--dest=1.2.3.4:80"] =
       ["obfs2", "--dest=1.2.3.4:80"].dropWhile (fun a => strStartsWith a "--") ∧
     consumedArgs initState ["obfs2", "--dest=1.2.3.4:80"] =
       ["obfs2", "--dest=1.2.3.4:80"].takeWhile (fun a => strStartsWith a "--")) :=
  ⟨by decide, by decide,
   dispatcher_remainder_unmodified ["obfs2", "--dest=1.2.3.4:80"] initState
     ["obfs2", "--dest=1.2.3.4:80"] (by decide)⟩

/-- C9: the registry lookup returns true exactly when some descriptor's
name is (case-sensitively) equal to the queried name; in particular it
returns false for every name, the empty string included, that no
descriptor carries. -/
theorem is_supported_protocol_iff_mem (registry : List ProtocolDescriptor)
    (name : String) :
    is_supported_protocol registry name = true ↔ ∃ p ∈ registry, p.name = name := by
  induction registry with
  | nil => simp [is_supported_protocol]
  | cons p rest ih =>
    rw [is_supported_protocol]
    by_cases h : name = p.name
    · simp [h]
    · simp only [h, if_false, ih, List.mem_cons]
      constructor
      · rintro ⟨q, hq, hn⟩
        exact ⟨q, Or.inr hq, hn⟩
      · rintro ⟨q, hq | hq, hn⟩
        · exact absurd (hq ▸ hn).symm h
        · exact ⟨q, hq, hn⟩

/-- C10: `--no-log` followed by `--log-file=<path>` is accepted without
any conflict — the duplicate check for `--log-file=` consults only its
own seen-flag (`logfile_set`), which `--no-log` does not touch — and the
final logging destination is the file: both flags end up set, the
destination is File(path), and External mode launches normally. -/
theorem no_log_then_logfile_ok (path : String) :
    handle_obfsproxy_args ["--no-log", "--log-file=" ++ path] =
      .ok (⟨true, true, true, true, .file path, "notice"⟩, []) ∧
    obfs_main ["--no-log", "--log-file=" ++ path] =
      .launched (.external []) ⟨.file path, "notice", true⟩ := by
  constructor <;> rfl
